import Mathlib

/-!
# Verification of the MindMate emotion-classification core

Shallow embedding of the rule-based emotion classification fallback,
the TTL result cache and the sliding-window rate limiter of the
`mindmate-emotions-flow` backend (`backend/main.py`,
`backend/app_new_clean.py`, `backend/app.py`), together with proofs of
the specified properties.

Conventions:
* Python text is embedded as `List Char`; Python floats are idealized
  as exact rationals (`ℚ`).
* `backend/app.py`'s rule-based scoring function is truncated in the
  repository: its final part (compound patterns, sentiment fallback,
  exclamation amplification, thresholding and the confidence formula,
  lines 464-525) is present, while the opening part (the keyword
  lexicon and the matching loop) is missing.  The missing opening is
  modelled from the specification and marked as such; everything else
  is translated from the source.
-/

namespace Mindmate

/-! ## Text utilities (Python string operations) -/

/-- Python `str.lower()` on a list of characters. -/
def pyLower (s : List Char) : List Char := s.map Char.toLower

/-- Whitespace characters recognised by Python `str.strip()`
(restricted to the ASCII whitespace that can occur in this code base). -/
def isWs (c : Char) : Bool :=
  c = ' ' || c = '\t' || c = '\n' || c = '\r'

/-- Python `str.strip()`: drop whitespace from both ends. -/
def pyStrip (s : List Char) : List Char :=
  ((s.dropWhile isWs).reverse.dropWhile isWs).reverse

/-- `listStarts pat s` is true when `pat` is an initial segment of `s`
(Python `s.startswith(pat)`). -/
def listStarts : List Char → List Char → Bool
  | [], _ => true
  | _ :: _, [] => false
  | a :: as, b :: bs => a = b && listStarts as bs

/-- `containsSub pat s` is true when `pat` occurs contiguously inside
`s` (Python `pat in s`). -/
def containsSub (pat : List Char) : List Char → Bool
  | [] => pat.isEmpty
  | c :: rest => listStarts pat (c :: rest) || containsSub pat rest

/-- Python `s.endswith(pat)`. -/
def listEnds (pat s : List Char) : Bool :=
  listStarts pat.reverse s.reverse

/-- Abbreviation turning a string literal into the character-list text
representation. -/
def txt (s : String) : List Char := s.toList

/-! ## The emotion label enumeration

`backend/app.py` (`class EmotionLabel(str, Enum)`) declares the closed
label set. -/

inductive EmotionLabel where
  | joy
  | sadness
  | anger
  | fear
  | surprise
  | love
  | neutral
deriving DecidableEq, Repr

open EmotionLabel

/-- Declaration order of `EmotionLabel` in `backend/app.py`
(JOY, SADNESS, ANGER, FEAR, SURPRISE, NEUTRAL, LOVE); this is the
iteration order used for ties in the rule-based scorer per the
specification's declaration-order tie-break. -/
def labelOrder : List EmotionLabel :=
  [joy, sadness, anger, fear, surprise, neutral, love]

/-- The closed set of label strings crossing the public interface. -/
def closedLabelStrings : List String :=
  ["joy", "sadness", "anger", "fear", "surprise", "love", "neutral"]

/-- Maximum entry of an emotion score vector
(Python `max(emotion_scores.values())`). -/
def maxScore (v : EmotionLabel → ℚ) : ℚ :=
  (labelOrder.map v).foldl max (v joy)

/-- Sum of all entries of an emotion score vector
(Python `sum(emotion_scores.values())`). -/
def sumScores (v : EmotionLabel → ℚ) : ℚ :=
  (labelOrder.map v).sum

/-! ## `backend/main.py`: rule-based fallback and dispatch -/

/-- Keyword lists of `rule_based_emotion_detection` in
`backend/main.py` (dict `emotion_keywords`), in dict insertion order. -/
def mainEmotionKeywords : List (EmotionLabel × List (List Char)) :=
  [ (joy, [txt "happy", txt "joy", txt "excited", txt "glad", txt "delighted", txt "pleased"]),
    (sadness, [txt "sad", txt "unhappy", txt "depressed", txt "down", txt "miserable", txt "upset"]),
    (anger, [txt "angry", txt "mad", txt "furious", txt "annoyed", txt "irritated", txt "frustrated"]),
    (fear, [txt "afraid", txt "scared", txt "frightened", txt "worried", txt "anxious", txt "nervous"]),
    (love, [txt "love", txt "adore", txt "care", txt "cherish", txt "affection", txt "fond"]),
    (surprise, [txt "surprised", txt "amazed", txt "astonished", txt "shocked", txt "stunned", txt "wow"]),
    (neutral, [txt "okay", txt "fine", txt "alright", txt "neutral", txt "so-so", txt "moderate"]) ]

/-- Dict iteration order of `emotion_keywords` in `backend/main.py`
(note: `love` before `surprise`, unlike the `EmotionLabel` enum). -/
def mainLabelOrder : List EmotionLabel :=
  [joy, sadness, anger, fear, love, surprise, neutral]

/-- The keyword-match condition of `rule_based_emotion_detection`:
`f" {keyword} " in f" {text} " or text.startswith(keyword) or
text.endswith(keyword)`. -/
def mainKwMatch (kw text : List Char) : Bool :=
  containsSub (' ' :: (kw ++ [' '])) (' ' :: (text ++ [' '])) ||
    listStarts kw text || listEnds kw text

/-- Score vector built by `rule_based_emotion_detection`
(`backend/main.py` lines 405-415): every label starts at `0`, `neutral`
starts at `0.1`, and each matching keyword adds `0.2` to its label. -/
def mainScores (text : List Char) : EmotionLabel → ℚ := fun l =>
  let base : ℚ := if l = neutral then 0.1 else 0
  let kws : List (List Char) :=
    ((mainEmotionKeywords.find? (fun p => p.1 = l)).map Prod.snd).getD []
  base + 0.2 * ((kws.filter (fun kw => mainKwMatch kw text)).length : ℚ)

/-- Maximum of `mainScores` in `main.py` dict order. -/
def mainMaxScore (v : EmotionLabel → ℚ) : ℚ :=
  (mainLabelOrder.map v).foldl max (v joy)

/-- Python `max(scores, key=scores.get)`: the first label (in dict
insertion order) attaining the maximal score. -/
def mainArgmax (v : EmotionLabel → ℚ) : EmotionLabel :=
  match mainLabelOrder with
  | [] => neutral
  | l :: ls => ls.foldl (fun best x => if v best < v x then x else best) l

/-- Result shape of an emotion classification (emotion label,
confidence, `model_used` tag). -/
structure DetectResult where
  emotion : EmotionLabel
  confidence : ℚ
  model_used : String
deriving DecidableEq, Repr

/-- `rule_based_emotion_detection` in `backend/main.py` (lines
390-425): lower-case the text, count keyword matches (0.2 each,
`neutral` seeded with 0.1); if the maximal score is at most 0.1 return
`neutral` with confidence 0.8, otherwise return the first-maximal
label with confidence `min(0.7, score)`. -/
def mainRuleBased (text0 : List Char) : DetectResult :=
  let text := pyLower text0
  let scores := mainScores text
  if mainMaxScore scores ≤ 0.1 then
    { emotion := neutral, confidence := 0.8, model_used := "rule-based" }
  else
    let maxEmotion := mainArgmax scores
    { emotion := maxEmotion
      confidence := min 0.7 (scores maxEmotion)
      model_used := "rule-based" }

/-- Outcome of the ML-model section of `detect_emotion` in
`backend/main.py`: the transformers models may be unavailable, may
produce a label and score, or may throw. -/
inductive MlOutcome where
  | unavailable
  | classified (label : String) (score : ℚ)
  | exn (msg : String)
deriving DecidableEq, Repr

/-- `map_emotion_label` in `backend/main.py` (lines 369-388):
substring tests on the lower-cased label, defaulting to `"neutral"`. -/
def mainMapEmotionLabel (label0 : List Char) : String :=
  let label := pyLower label0
  let hit : List String → Bool := fun pats =>
    pats.any (fun p => containsSub (txt p) label)
  if hit ["joy", "happ", "excit", "amus"] then "joy"
  else if hit ["sad", "disappoint", "grief"] then "sadness"
  else if hit ["ang", "frus", "annoy", "irrita"] then "anger"
  else if hit ["fear", "anx", "worry", "nerv", "stress"] then "fear"
  else if hit ["love", "affe", "care", "compassion"] then "love"
  else if hit ["surp", "amaz", "awe", "astonish"] then "surprise"
  else "neutral"

/-- String-labelled result used where the Python code carries labels as
raw strings. -/
structure StrDetectResult where
  emotion : String
  confidence : ℚ
  model_used : String
deriving DecidableEq, Repr

instance {ε α : Type} [DecidableEq ε] [DecidableEq α] :
    DecidableEq (Except ε α) := fun a b =>
  match a, b with
  | Except.error x, Except.error y =>
      if h : x = y then Decidable.isTrue (by rw [h])
      else Decidable.isFalse (by simp [h])
  | Except.ok x, Except.ok y =>
      if h : x = y then Decidable.isTrue (by rw [h])
      else Decidable.isFalse (by simp [h])
  | Except.error _, Except.ok _ => Decidable.isFalse (by simp)
  | Except.ok _, Except.error _ => Decidable.isFalse (by simp)

/-- `detect_emotion` in `backend/main.py` (lines 258-338), cache-miss
path, as a function of the ML-model outcome.  Trimmed input shorter
than 3 characters short-circuits to `neutral` with confidence `1.0`
and `model_used = "rule-based"`; a classifier label is mapped through
`map_emotion_label`; with no ML model the rule-based fallback runs; an
exception inside the handler is converted to `HTTPException(500)`
(modelled as `Except.error 500`). -/
def mainDetectEmotion (text0 : List Char) (ml : MlOutcome) :
    Except Nat StrDetectResult :=
  let text := pyStrip text0
  if text.length < 3 then
    .ok { emotion := "neutral", confidence := 1.0, model_used := "rule-based" }
  else
    match ml with
    | .classified label score =>
        .ok { emotion := mainMapEmotionLabel (txt label)
              confidence := score
              model_used := "emotion_classifier" }
    | .unavailable =>
        let r := mainRuleBased text
        .ok { emotion := (match r.emotion with
                | joy => "joy" | sadness => "sadness" | anger => "anger"
                | fear => "fear" | surprise => "surprise" | love => "love"
                | neutral => "neutral")
              confidence := r.confidence
              model_used := "rule-based" }
    | .exn _ => .error 500

/-! ## `backend/app_new_clean.py`: rate limiter, HuggingFace adapter,
dispatch endpoints -/

/-- `RATE_LIMIT_WINDOW` in `backend/app_new_clean.py`. -/
def RATE_LIMIT_WINDOW : ℚ := 60

/-- `RATE_LIMIT_MAX_CALLS` in `backend/app_new_clean.py`. -/
def RATE_LIMIT_MAX_CALLS : Nat := 30

/-- One step of `check_rate_limit` on a single identity's window
(`backend/app_new_clean.py` lines 75-94): keep only timestamps
strictly newer than `now - 60`; if at least 30 remain, reject with the
pruned window; otherwise append `now` and accept. -/
def checkRateLimit (now : ℚ) (window : List ℚ) : Bool × List ℚ :=
  let pruned := window.filter (fun t => now - RATE_LIMIT_WINDOW < t)
  if RATE_LIMIT_MAX_CALLS ≤ pruned.length then (false, pruned)
  else (true, pruned ++ [now])

/-- The whole `rate_limit_cache` (`defaultdict(list)`), keyed by client
IP; an identity with no prior activity has an empty window. -/
abbrev RateCache : Type := String → List ℚ

/-- `check_rate_limit(client_ip)` acting on the whole cache. -/
def rateLimitStep (ip : String) (now : ℚ) (st : RateCache) :
    Bool × RateCache :=
  let s := checkRateLimit now (st ip)
  (s.1, fun k => if k = ip then s.2 else st k)

/-- Processing a sequence of calls from one identity through
`check_rate_limit`, returning the admission decisions and the final
window. -/
def runCalls (w : List ℚ) : List ℚ → List Bool × List ℚ
  | [] => ([], w)
  | t :: ts =>
      let s := checkRateLimit t w
      let r := runCalls s.2 ts
      (s.1 :: r.1, r.2)

/-- `EMOTION_MAPPING` in `backend/app_new_clean.py` (lines 59-73). -/
def EMOTION_MAPPING : List (String × String) :=
  [ ("LABEL_0", "sadness"), ("LABEL_1", "joy"), ("LABEL_2", "love"),
    ("LABEL_3", "anger"), ("LABEL_4", "fear"), ("LABEL_5", "surprise"),
    ("sadness", "sadness"), ("joy", "joy"), ("love", "love"),
    ("anger", "anger"), ("fear", "fear"), ("surprise", "surprise"),
    ("neutral", "neutral") ]

/-- Python `EMOTION_MAPPING.get(label, label)`: look the label up,
defaulting to the label itself. -/
def emotionMappingGet (label : String) : String :=
  ((EMOTION_MAPPING.find? (fun p => p.1 = label)).map Prod.snd).getD label

/-- Python `str.lower()` on a `String` label. -/
def lowerStr (s : String) : String := String.mk (pyLower s.toList)

/-- Outcome of the HuggingFace HTTP call as observed by
`detect_emotion_huggingface`: a 200 response parsed into a list of
`(label, score)` pairs, a non-200 status, a timeout, or any other
thrown condition. -/
inductive HFResponse where
  | ok (emotions : List (String × ℚ))
  | httpError (status : Nat)
  | timeout
  | exn (msg : String)
deriving DecidableEq, Repr

/-- Python `max(emotions, key=lambda x: x['score'])`: first pair (in
list order) with maximal score. -/
def maxByScore (e : String × ℚ) (es : List (String × ℚ)) : String × ℚ :=
  es.foldl (fun best x => if best.2 < x.2 then x else best) e

/-- `detect_emotion_huggingface` in `backend/app_new_clean.py` (lines
195-237).  A 200 response with a nonempty list yields the
highest-scoring label, lower-cased and sent through
`EMOTION_MAPPING.get(label, label)`; every failure raises an
`HTTPException` (modelled as `Except.error status`): an empty/other
200 payload re-raises with the response status (200), a non-200 status
raises that status, a timeout raises 408, anything else raises 500. -/
def detectEmotionHuggingface (resp : HFResponse) :
    Except Nat StrDetectResult :=
  match resp with
  | .ok [] => .error 200
  | .ok (e :: es) =>
      let best := maxByScore e es
      let emotionLabel := lowerStr best.1
      .ok { emotion := emotionMappingGet emotionLabel
            confidence := best.2
            model_used := "j-hartmann/emotion-english-distilroberta-base" }
  | .httpError s => .error s
  | .timeout => .error 408
  | .exn _ => .error 500

/-- `/api/detect-emotion` (`detect_emotion` in
`backend/app_new_clean.py`, lines 239-269) as a function of the client
identity, the current time, the rate cache and the adapter outcome.
Rate limiting runs first (a rejection raises 429); then the
HuggingFace adapter is called, and since every adapter failure is an
`HTTPException`, the `except HTTPException: raise` clause re-raises it
to the caller.  The state component is the updated rate cache. -/
def apiDetectEmotion (ip : String) (now : ℚ) (st : RateCache)
    (resp : HFResponse) : Except Nat StrDetectResult × RateCache :=
  let s := rateLimitStep ip now st
  if s.1 = false then (.error 429, s.2)
  else
    match detectEmotionHuggingface resp with
    | .ok r => (.ok r, s.2)
    | .error e => (.error e, s.2)

/-- One item of `/api/batch-detect-emotion`: the per-item
`try/except Exception` converts any adapter failure (`HTTPException`
included) into the static fallback `{neutral, 0.5, "fallback"}`. -/
def batchItem (resp : HFResponse) : StrDetectResult :=
  match detectEmotionHuggingface resp with
  | .ok r => r
  | .error _ =>
      { emotion := "neutral", confidence := 0.5, model_used := "fallback" }

/-- `/api/batch-detect-emotion` (`batch_detect_emotion` in
`backend/app_new_clean.py`, lines 271-307) as a function of the
adapter outcomes and the rate cache: the handler never consults or
mutates `rate_limit_cache`, so the state is passed through
unchanged. -/
def apiBatchDetectEmotion (resps : List HFResponse) (st : RateCache) :
    List StrDetectResult × RateCache :=
  (resps.map batchItem, st)

/-! ## `backend/app.py`: label mapping, endpoint guard, rule-based
classifier -/

/-- `EmotionMapping._mapping` in `backend/app.py` (lines 131-183). -/
def appEmotionMapping : List (String × EmotionLabel) :=
  [ ("joy", joy), ("happy", joy), ("happiness", joy), ("excitement", joy),
    ("delight", joy), ("pleasure", joy), ("cheerful", joy), ("elated", joy),
    ("sadness", sadness), ("sad", sadness), ("unhappy", sadness),
    ("depressed", sadness), ("grief", sadness), ("sorrow", sadness),
    ("disappointment", sadness), ("remorse", sadness),
    ("anger", anger), ("angry", anger), ("furious", anger), ("mad", anger),
    ("annoyance", anger), ("irritated", anger), ("frustrated", anger),
    ("disgust", anger),
    ("fear", fear), ("afraid", fear), ("scared", fear), ("frightened", fear),
    ("anxious", fear), ("worried", fear), ("nervous", fear), ("terrified", fear),
    ("surprise", surprise), ("surprised", surprise), ("amazed", surprise),
    ("astonished", surprise), ("shocked", surprise),
    ("love", love), ("affection", love), ("caring", love),
    ("admiration", love), ("gratitude", love),
    ("neutral", neutral), ("calm", neutral), ("peaceful", neutral) ]

/-- `EmotionMapping.map_emotion` in `backend/app.py` (lines 185-188):
lower-case the label and look it up, defaulting to `NEUTRAL`. -/
def appMapEmotion (label : String) : EmotionLabel :=
  ((appEmotionMapping.find? (fun p => p.1 = lowerStr label)).map
    Prod.snd).getD neutral

/-- Input guard of `detect_emotion` in `backend/app.py` (lines
415-416): empty or trimmed-shorter-than-3 input returns `neutral` with
confidence 0.5 before anything else runs; `none` means the guard did
not fire. -/
def appDetectEmotionGuard (text : List Char) :
    Option StrDetectResult :=
  if text.isEmpty || (pyStrip text).length < 3 then
    some { emotion := "neutral", confidence := 0.5, model_used := "guard" }
  else none

/-! ### The rule-based scorer

The tail of the scorer (compound patterns, sentiment fallback,
exclamation amplification, thresholding, tie-break, confidence) is
translated from `backend/app.py` lines 464-525.  The head (lexicon and
matching loop) is missing from the repository file and is modelled
from the specification. -/

/-- Modelled from the spec: the keyword lexicon of the rule-based
classifier (the opening of `backend/app.py`'s scorer, missing from the
repository file).  The specification gives the lexicon only by example
("happy", "joy", "excited" → joy); representative surface keywords are
used for the remaining labels. -/
def specEmotionLexicon : List (EmotionLabel × List (List Char)) :=
  [ (joy, [txt "happy", txt "joy", txt "excited"]),
    (sadness, [txt "sad", txt "unhappy", txt "depressed"]),
    (anger, [txt "angry", txt "mad", txt "furious"]),
    (fear, [txt "afraid", txt "scared", txt "anxious"]),
    (surprise, [txt "surprised", txt "amazed", txt "shocked"]),
    (love, [txt "love", txt "adore", txt "affection"]),
    (neutral, [txt "calm", txt "fine", txt "okay"]) ]

/-- Modelled from the spec: the diminisher phrase table (missing head
of `backend/app.py`'s scorer); the adjacency test itself
(`diminisher + " " + word in text or word + " " + diminisher in text`,
scaling by 0.6) is in the source at lines 464-465. -/
def specDiminishers : List (List Char) :=
  [txt "slightly", txt "somewhat", txt "barely"]

/-- Modelled from the spec: the negation word list of the negation
detector (missing head of `backend/app.py`'s scorer); the scaling by
0.3 when `has_negation` holds is in the source at lines 467-469. -/
def specNegationWords : List (List Char) :=
  [txt "not", txt "no", txt "never", txt "cannot"]

/-- A character that separates words (whole-word matching treats any
non-alphanumeric character as a boundary). -/
def normChar (c : Char) : Char :=
  if c.isAlpha || c.isDigit then c else ' '

/-- Modelled from the spec: whole-word occurrence of a keyword in the
text (specification §4.2 step 2: "matched as a whole-word
occurrence"). -/
def wordOccurs (kw text : List Char) : Bool :=
  containsSub (' ' :: (kw ++ [' '])) (' ' :: (text.map normChar ++ [' ']))

/-- Modelled from the spec: the `has_negation` flag of the scorer's
missing head — a negation word occurs as a whole word in the text
("presence of negation words near an emotion keyword"; nearness is
modelled as presence in the text). -/
def hasNegation (text : List Char) : Bool :=
  specNegationWords.any (fun w => wordOccurs w text)

/-- Contribution of one matched keyword: base score 1.0, multiplied by
0.6 for every adjacent diminisher (source lines 464-465) and by 0.3
under negation (source lines 467-469). -/
def kwContribution (text : List Char) (neg : Bool) (kw : List Char) : ℚ :=
  if wordOccurs kw text then
    let afterDim := specDiminishers.foldl
      (fun s d =>
        if containsSub (d ++ ' ' :: kw) text ||
            containsSub (kw ++ ' ' :: d) text then s * 0.6 else s) 1
    if neg then afterDim * 0.3 else afterDim
  else 0

/-- Base score vector after the keyword loop (head modelled from the
spec; per-keyword scaling from the source). -/
def baseScores (text : List Char) : EmotionLabel → ℚ := fun l =>
  let kws : List (List Char) :=
    ((specEmotionLexicon.find? (fun p => p.1 = l)).map Prod.snd).getD []
  (kws.map (kwContribution text (hasNegation text))).sum

/-- `compound_patterns` in `backend/app.py` (lines 474-480). -/
def compoundPatterns : List (EmotionLabel × List (List Char)) :=
  [ (joy, [txt "happy and excited", txt "love and joy",
           txt "happy and grateful", txt "excited and happy"]),
    (sadness, [txt "sad and lonely", txt "disappointed and hurt",
               txt "sad and angry", txt "upset and sad"]),
    (anger, [txt "angry and frustrated", txt "mad and disappointed",
             txt "angry and upset", txt "furious and mad"]),
    (fear, [txt "scared and worried", txt "afraid and anxious",
            txt "nervous and scared", txt "terrified and afraid"]),
    (surprise, [txt "surprised and amazed", txt "shocked and surprised",
                txt "amazed and shocked"]) ]

/-- Compound-pattern bonus (`backend/app.py` lines 482-485): +2 per
pattern occurring verbatim (substring test) in the text. -/
def compoundScores (text : List Char) (v : EmotionLabel → ℚ) :
    EmotionLabel → ℚ := fun l =>
  let pats : List (List Char) :=
    ((compoundPatterns.find? (fun p => p.1 = l)).map Prod.snd).getD []
  v l + 2 * ((pats.filter (fun p => containsSub p text)).length : ℚ)

/-- `positive_indicators` in `backend/app.py` (line 489). -/
def positiveIndicators : List (List Char) :=
  [txt "good", txt "great", txt "awesome", txt "wonderful",
   txt "fantastic", txt "amazing", txt "excellent", txt "positive"]

/-- `negative_indicators` in `backend/app.py` (line 490; the source
list repeats "awful"). -/
def negativeIndicators : List (List Char) :=
  [txt "bad", txt "terrible", txt "awful", txt "horrible",
   txt "worst", txt "negative", txt "awful"]

/-- Sentiment fallback (`backend/app.py` lines 487-498): when every
score is below 1, count positive vs negative indicator words
(substring test, as in the source) and add +1 to `joy` or `sadness`. -/
def sentimentScores (text : List Char) (v : EmotionLabel → ℚ) :
    EmotionLabel → ℚ :=
  if maxScore v < 1 then
    let pos := (positiveIndicators.filter (fun w => containsSub w text)).length
    let neg := (negativeIndicators.filter (fun w => containsSub w text)).length
    if neg < pos then fun l => if l = joy then v l + 1 else v l
    else if pos < neg then fun l => if l = sadness then v l + 1 else v l
    else v
  else v

/-- Python `max(emotion_scores, key=emotion_scores.get)` over the
scorer's dict: first label in `labelOrder` attaining the maximum. -/
def argmaxLabel (v : EmotionLabel → ℚ) : EmotionLabel :=
  match labelOrder with
  | [] => neutral
  | l :: ls => ls.foldl (fun best x => if v best < v x then x else best) l

/-- Exclamation amplification (`backend/app.py` lines 500-504): if the
text ends with `"!"`, multiply the maximal label's score by 1.2 — but
only when that score is positive. -/
def exclaimScores (text : List Char) (v : EmotionLabel → ℚ) :
    EmotionLabel → ℚ :=
  if listEnds (txt "!") text then
    let m := argmaxLabel v
    if 0 < v m then fun l => if l = m then v l * 1.2 else v l else v
  else v

/-- The final score vector of the rule-based classifier on the
lower-cased text: keyword matching, compound bonus, sentiment
fallback, exclamation amplification, in source order. -/
def finalScores (text0 : List Char) : EmotionLabel → ℚ :=
  let text := pyLower text0
  exclaimScores text (sentimentScores text (compoundScores text (baseScores text)))

/-- Round-half-to-even to the nearest integer (Python `round` on an
exactly represented value). -/
def roundHalfEven (q : ℚ) : ℤ :=
  let f := ⌊q⌋
  let r := q - f
  if r < 1/2 then f
  else if 1/2 < r then f + 1
  else if f % 2 = 0 then f else f + 1

/-- Python `round(x, 2)`, idealized over exact rationals. -/
def round2 (q : ℚ) : ℚ := (roundHalfEven (q * 100) : ℚ) / 100

/-- Finish of the rule-based classifier (`backend/app.py` lines
506-525): if the maximal score is below 0.5 return `neutral` with
confidence 0.4; otherwise return the first label (tie-break by
declaration order) carrying the maximal score, with confidence
`round(min(max_score / total_score if total_score > 0 else 0.5,
0.95), 2)`. -/
def ruleBasedFinish (v : EmotionLabel → ℚ) : DetectResult :=
  let ms := maxScore v
  if ms < 0.5 then
    { emotion := neutral, confidence := 0.4, model_used := "rule-based" }
  else
    let dominant := ((labelOrder.filter (fun l => v l = ms)).headD neutral)
    let total := sumScores v
    let confidence := min (if 0 < total then ms / total else 0.5) 0.95
    { emotion := dominant
      confidence := round2 confidence
      model_used := "rule-based" }

/-- The rule-based classifier of `backend/app.py`: final scores (head
modelled from the spec, adjustments from the source) followed by the
source's finish. -/
def appRuleBased (text : List Char) : DetectResult :=
  ruleBasedFinish (finalScores text)

/-! ## The TTL result cache

`backend/main.py` stores results in `emotion_cache =
TTLCache(maxsize=1000, ttl=3600)`; the `TTLCache` implementation
belongs to the `cachetools` library and is not part of the repository
sources. -/

/-- TTL of the emotion cache (`backend/main.py` line 31). -/
def CACHE_TTL : ℚ := 3600

/-- Modelled from the spec: the entry store of the `ResultCache`
(`cachetools.TTLCache`, not in `src/`): an association list of
`(key, value, insertedAt)` entries. -/
abbrev Cache (α : Type) : Type := List (String × α × ℚ)

/-- Modelled from the spec: `put(key, value)` inserts or overwrites
the entry for `key` (specification §4.3). -/
def cachePut {α : Type} (c : Cache α) (k : String) (v : α) (now : ℚ) :
    Cache α :=
  (k, v, now) :: c.filter (fun p => ¬ p.1 = k)

/-- Modelled from the spec: `get(key)` returns a live entry or signals
absence, treating an entry as expired exactly when
`now - insertedAt > TTL` (specification §3, §4.3), even if it has not
been physically evicted. -/
def cacheGet {α : Type} (c : Cache α) (k : String) (now : ℚ) : Option α :=
  match c.find? (fun p => p.1 = k) with
  | some e => if now - e.2.2 ≤ CACHE_TTL then some e.2.1 else none
  | none => none

/-! ## Helper lemmas -/

/-- Every `EmotionLabel` occurs in the declaration-order list. -/
theorem mem_labelOrder (e : EmotionLabel) : e ∈ labelOrder := by
  cases e <;> decide

/-- Round-half-to-even never exceeds an integer bound that the input
respects. -/
theorem roundHalfEven_le (q : ℚ) (n : ℤ) (h : q ≤ (n : ℚ)) :
    roundHalfEven q ≤ n := by
  have hf : ⌊q⌋ ≤ n := by
    have := Int.floor_mono h
    simpa using this
  have hfl : (⌊q⌋ : ℚ) ≤ q := Int.floor_le q
  simp only [roundHalfEven]
  split
  · exact hf
  · rename_i h1
    split
    · rename_i h2
      by_contra hc
      have hn : n ≤ ⌊q⌋ := by omega
      have hn' : (n : ℚ) ≤ (⌊q⌋ : ℚ) := by exact_mod_cast hn
      linarith
    · rename_i h2
      have hr : q - (⌊q⌋ : ℚ) = 1/2 := by
        push_neg at h1 h2
        linarith
      split
      · exact hf
      · by_contra hc
        have hn : n ≤ ⌊q⌋ := by omega
        have hn' : (n : ℚ) ≤ (⌊q⌋ : ℚ) := by exact_mod_cast hn
        linarith

/-- `round2` never exceeds a two-decimal bound that the input
respects. -/
theorem round2_le (q : ℚ) (n : ℤ) (h : q ≤ (n : ℚ) / 100) :
    round2 q ≤ (n : ℚ) / 100 := by
  have h100 : q * 100 ≤ (n : ℚ) := by linarith
  have hr : roundHalfEven (q * 100) ≤ n := roundHalfEven_le _ _ h100
  have hr' : ((roundHalfEven (q * 100) : ℤ) : ℚ) ≤ (n : ℚ) := by
    exact_mod_cast hr
  unfold round2
  linarith

/-- Specialisation of `round2_le` to the 0.95 confidence cap. -/
theorem round2_le_095 (q : ℚ) (h : q ≤ 0.95) : round2 q ≤ 0.95 := by
  have h1 : q ≤ ((95 : ℤ) : ℚ) / 100 := by push_cast; linarith
  calc round2 q ≤ ((95 : ℤ) : ℚ) / 100 := round2_le q 95 h1
    _ = 0.95 := by norm_num

/-- The diminisher scaling fold keeps scores nonnegative. -/
theorem foldl_scale_nonneg (p : List Char → Bool) (ds : List (List Char)) :
    ∀ s : ℚ, 0 ≤ s →
      0 ≤ ds.foldl (fun a d => if p d then a * 0.6 else a) s := by
  induction ds with
  | nil => intro s hs; simpa using hs
  | cons d ds ih =>
      intro s hs
      simp only [List.foldl_cons]
      apply ih
      split
      · nlinarith
      · exact hs

/-- A single keyword contribution is nonnegative. -/
theorem kwContribution_nonneg (text : List Char) (neg : Bool)
    (kw : List Char) : 0 ≤ kwContribution text neg kw := by
  unfold kwContribution
  split
  · have h0 : (0 : ℚ) ≤ 1 := by norm_num
    have hd := foldl_scale_nonneg
      (fun d => containsSub (d ++ ' ' :: kw) text ||
        containsSub (kw ++ ' ' :: d) text) specDiminishers 1 h0
    split
    · nlinarith
    · exact hd
  · exact le_refl 0

/-- The base score vector is nonnegative. -/
theorem baseScores_nonneg (text : List Char) (l : EmotionLabel) :
    0 ≤ baseScores text l := by
  unfold baseScores
  apply List.sum_nonneg
  intro x hx
  simp only [List.mem_map] at hx
  obtain ⟨kw, _, rfl⟩ := hx
  exact kwContribution_nonneg _ _ _

/-- The compound bonus preserves nonnegativity. -/
theorem compoundScores_nonneg (text : List Char) (v : EmotionLabel → ℚ)
    (hv : ∀ l, 0 ≤ v l) (l : EmotionLabel) :
    0 ≤ compoundScores text v l := by
  unfold compoundScores
  have := hv l
  positivity

/-- The sentiment fallback preserves nonnegativity. -/
theorem sentimentScores_nonneg (text : List Char) (v : EmotionLabel → ℚ)
    (hv : ∀ l, 0 ≤ v l) (l : EmotionLabel) :
    0 ≤ sentimentScores text v l := by
  unfold sentimentScores
  split
  · dsimp only
    split
    · dsimp only
      split <;> linarith [hv l]
    · split
      · dsimp only
        split <;> linarith [hv l]
      · exact hv l
  · exact hv l

/-- The exclamation amplification preserves nonnegativity. -/
theorem exclaimScores_nonneg (text : List Char) (v : EmotionLabel → ℚ)
    (hv : ∀ l, 0 ≤ v l) (l : EmotionLabel) :
    0 ≤ exclaimScores text v l := by
  unfold exclaimScores
  split
  · dsimp only
    split
    · dsimp only
      split <;> nlinarith [hv l]
    · exact hv l
  · exact hv l

/-- The final score vector of the rule-based classifier is
nonnegative. -/
theorem finalScores_nonneg (text : List Char) (l : EmotionLabel) :
    0 ≤ finalScores text l := by
  unfold finalScores
  apply exclaimScores_nonneg
  apply sentimentScores_nonneg
  apply compoundScores_nonneg
  exact fun l => baseScores_nonneg _ l

/-- For a nonnegative score vector the maximal entry is at most the
sum of all entries. -/
theorem maxScore_le_sumScores (v : EmotionLabel → ℚ)
    (hv : ∀ l, 0 ≤ v l) : maxScore v ≤ sumScores v := by
  have hj := hv joy
  have hs := hv sadness
  have ha := hv anger
  have hf := hv fear
  have hsu := hv surprise
  have hn := hv neutral
  have hl := hv love
  simp only [maxScore, sumScores, labelOrder, List.map_cons, List.map_nil,
    List.foldl_cons, List.foldl_nil, List.sum_cons, List.sum_nil]
  rcases max_cases (v joy) (v joy) with ⟨h1, _⟩ | ⟨h1, _⟩ <;>
    · repeat' apply max_le_iff.mpr ⟨?_, ?_⟩
      all_goals linarith [le_refl (v joy)]

/-- As long as at most 30 timestamps accumulate and all calls lie
within the 60-second window of everything already recorded, every call
is admitted and the window collects the call times in order. -/
theorem runCalls_admits (ts : List ℚ) :
    ∀ w : List ℚ, w.length + ts.length ≤ RATE_LIMIT_MAX_CALLS →
      (∀ a ∈ ts, ∀ b ∈ w ++ ts, a - RATE_LIMIT_WINDOW < b) →
      (runCalls w ts).1 = List.replicate ts.length true ∧
        (runCalls w ts).2 = w ++ ts := by
  induction ts with
  | nil => intro w _ _; simp [runCalls]
  | cons t ts ih =>
      intro w hlen hspan
      have hw : ∀ b ∈ w, t - RATE_LIMIT_WINDOW < b := by
        intro b hb
        exact hspan t (by simp) b (by simp [hb])
      have hfilter :
          w.filter (fun b => t - RATE_LIMIT_WINDOW < b) = w := by
        apply List.filter_eq_self.mpr
        intro b hb
        simpa using hw b hb
      have hwlen : w.length < RATE_LIMIT_MAX_CALLS := by
        simp only [List.length_cons] at hlen
        omega
      have hstep : checkRateLimit t w = (true, w ++ [t]) := by
        unfold checkRateLimit
        rw [hfilter]
        rw [if_neg (by omega)]
      have hih := ih (w ++ [t])
        (by simp only [List.length_append, List.length_cons,
              List.length_nil] at hlen ⊢; omega)
        (by
          intro a ha b hb
          apply hspan a (by simp [ha]) b
          simp only [List.append_assoc, List.cons_append, List.nil_append] at hb ⊢
          simpa using hb)
      unfold runCalls
      rw [hstep]
      simp only [List.length_cons, List.replicate_succ]
      refine ⟨?_, ?_⟩
      · simp [hih.1]
      · rw [hih.2]
        simp

/-! ## Claim theorems -/

/-- C1 (counterexample): on an adapter timeout, `/api/detect-emotion`
does not fall back to any rule-based result but re-raises the
`HTTPException` (status 408) to the caller, and `backend/main.py`'s
`detect_emotion` converts an in-handler exception into a bare
HTTP 500 — refuting the claim that the dispatch endpoint never raises
and never returns a bare 500 on external-service failure. -/
theorem c1_fallback_counterexample :
    (apiDetectEmotion "client" 0 (fun _ => []) HFResponse.timeout).1 =
      Except.error 408 ∧
    mainDetectEmotion (txt "hello") (MlOutcome.exn "boom") =
      Except.error 500 := by
  constructor
  · rfl
  · rfl

/-- C1 (amended): when the rate limiter admits the call and the
HuggingFace adapter fails with an `HTTPException` of status `e`
(timeout, non-2xx, malformed payload or any thrown condition),
`/api/detect-emotion` re-raises exactly that error to the caller and
never invokes a rule-based classifier; `backend/main.py`'s
`detect_emotion` turns an exception on a non-short-circuited input
into `HTTPException(500)`. -/
theorem adapter_failure_propagates :
    (∀ (ip : String) (now : ℚ) (st : RateCache) (resp : HFResponse)
        (e : Nat),
      ((st ip).filter (fun t => now - RATE_LIMIT_WINDOW < t)).length <
        RATE_LIMIT_MAX_CALLS →
      detectEmotionHuggingface resp = Except.error e →
      (apiDetectEmotion ip now st resp).1 = Except.error e) ∧
    (∀ (text : List Char) (m : String), 3 ≤ (pyStrip text).length →
      mainDetectEmotion text (MlOutcome.exn m) = Except.error 500) := by
  constructor
  · intro ip now st resp e hrate hfail
    unfold apiDetectEmotion rateLimitStep checkRateLimit
    rw [if_neg (not_le.mpr hrate)]
    simp only [hfail]
    rfl
  · intro text m h
    unfold mainDetectEmotion
    rw [if_neg (by omega)]

/-- C1 (witness): concrete instantiation of
`adapter_failure_propagates` at an empty rate window, a timeout
response and the input `"hello"`. -/
theorem adapter_failure_propagates_witness :
    detectEmotionHuggingface HFResponse.timeout = Except.error 408 ∧
    (apiDetectEmotion "client" 7 (fun _ => []) HFResponse.timeout).1 =
      Except.error 408 ∧
    3 ≤ (pyStrip (txt "hello")).length ∧
    mainDetectEmotion (txt "hello") (MlOutcome.exn "e") =
      Except.error 500 :=
  ⟨rfl,
   adapter_failure_propagates.1 "client" 7 (fun _ => []) HFResponse.timeout
     408 (by decide) rfl,
   by decide,
   adapter_failure_propagates.2 (txt "hello") "e" (by decide)⟩

/-- C2 (counterexample): for the empty input (trimmed length 0 < 3),
`backend/main.py`'s `detect_emotion` short-circuits to `neutral` with
confidence exactly `1.0` (tagged `model_used = "rule-based"`), not
`0.5` — refuting the claim that the short-circuit confidence is 0.5
exactly. -/
theorem short_input_counterexample :
    mainDetectEmotion (txt "") MlOutcome.unavailable =
      Except.ok { emotion := "neutral", confidence := 1.0,
                  model_used := "rule-based" } ∧
    ¬ mainDetectEmotion (txt "") MlOutcome.unavailable =
      Except.ok { emotion := "neutral", confidence := 0.5,
                  model_used := "rule-based" } := by
  refine ⟨rfl, fun h => ?_⟩
  rw [show mainDetectEmotion (txt "") MlOutcome.unavailable =
      Except.ok { emotion := "neutral", confidence := 1.0,
                  model_used := "rule-based" } from rfl] at h
  simp only [Except.ok.injEq, StrDetectResult.mk.injEq] at h
  have hc := h.2.1
  norm_num at hc

/-- C2 (amended): input whose trimmed length is below 3 characters
short-circuits before any scoring runs, but the two dispatchers
disagree on the constant: `backend/app.py`'s `detect_emotion` guard
returns `neutral` with confidence 0.5, while `backend/main.py`'s
returns `neutral` with confidence 1.0. -/
theorem short_input_short_circuits :
    (∀ text : List Char, (pyStrip text).length < 3 →
      appDetectEmotionGuard text =
        some { emotion := "neutral", confidence := 0.5,
               model_used := "guard" }) ∧
    (∀ (text : List Char) (ml : MlOutcome), (pyStrip text).length < 3 →
      mainDetectEmotion text ml =
        Except.ok { emotion := "neutral", confidence := 1.0,
                    model_used := "rule-based" }) := by
  constructor
  · intro text h
    unfold appDetectEmotionGuard
    rw [if_pos (by simp [h])]
  · intro text ml h
    unfold mainDetectEmotion
    rw [if_pos h]

/-- C2 (witness): concrete instantiation of
`short_input_short_circuits` at the one-character input `"a"`. -/
theorem short_input_short_circuits_witness :
    (pyStrip (txt "a")).length < 3 ∧
    appDetectEmotionGuard (txt "a") =
      some { emotion := "neutral", confidence := 0.5,
             model_used := "guard" } ∧
    mainDetectEmotion (txt "a") MlOutcome.unavailable =
      Except.ok { emotion := "neutral", confidence := 1.0,
                  model_used := "rule-based" } :=
  ⟨by decide,
   short_input_short_circuits.1 (txt "a") (by decide),
   short_input_short_circuits.2 (txt "a") MlOutcome.unavailable (by decide)⟩

/-- C3 (counterexample): a HuggingFace 200 response whose top label is
`"disgust"` — a real label of the configured
`j-hartmann/emotion-english-distilroberta-base` model — is not a key of
`EMOTION_MAPPING`, so `backend/app_new_clean.py` passes it through
verbatim: the result's emotion is `"disgust"`, which is outside the
closed label set. -/
theorem unmapped_label_counterexample :
    detectEmotionHuggingface (HFResponse.ok [("disgust", 99/100)]) =
      Except.ok { emotion := "disgust", confidence := 99/100,
                  model_used :=
                    "j-hartmann/emotion-english-distilroberta-base" } ∧
    "disgust" ∉ closedLabelStrings := by
  exact ⟨rfl, by decide⟩

/-- C3 (amended): `backend/main.py`'s `map_emotion_label` and
`backend/app.py`'s `EmotionMapping.map_emotion` always map into the
closed label set (defaulting to neutral), but
`backend/app_new_clean.py`'s `EMOTION_MAPPING.get(label, label)`
defaults to the raw label, so any label outside the mapping's keys
crosses the interface verbatim. -/
theorem label_mapping_closure :
    (∀ label : List Char, mainMapEmotionLabel label ∈ closedLabelStrings) ∧
    (∀ label : String, appMapEmotion label ∈ labelOrder) ∧
    (∀ label : String,
      EMOTION_MAPPING.find? (fun p => p.1 = label) = none →
      emotionMappingGet label = label) := by
  refine ⟨?_, ?_, ?_⟩
  · intro label
    simp only [mainMapEmotionLabel]
    repeat' split
    all_goals decide
  · intro label
    exact mem_labelOrder _
  · intro label h
    unfold emotionMappingGet
    rw [h]
    rfl

/-- C3 (witness): concrete instantiation of `label_mapping_closure` at
the labels `"curiosity"` (not a mapping key, passed through verbatim)
and `"frustration"` (mapped to `"anger"` by `map_emotion_label`). -/
theorem label_mapping_closure_witness :
    EMOTION_MAPPING.find? (fun p => p.1 = "curiosity") = none ∧
    emotionMappingGet "curiosity" = "curiosity" ∧
    mainMapEmotionLabel (txt "frustration") ∈ closedLabelStrings :=
  ⟨by decide,
   label_mapping_closure.2.2 "curiosity" (by decide),
   label_mapping_closure.1 (txt "frustration")⟩

/-- C4 (counterexample): for the input `"hi"` (trimmed length 2),
`backend/main.py` returns a result tagged `model_used = "rule-based"`
whose confidence is exactly `1.0` — refuting the claim that rule-based
confidence is strictly below 0.95 and never 1.0. -/
theorem rule_based_confidence_counterexample :
    mainDetectEmotion (txt "hi") MlOutcome.unavailable =
      Except.ok { emotion := "neutral", confidence := 1.0,
                  model_used := "rule-based" } ∧
    ¬ ((1.0 : ℚ) < 0.95) := by
  exact ⟨rfl, by norm_num⟩

/-- C4 (amended): the scoring functions themselves keep rule-based
confidence at or below 0.95 (`backend/app.py`, where 0.95 is
attainable) respectively at or below 0.8
(`backend/main.py`'s `rule_based_emotion_detection`), and in
particular never 1.0; the sole rule-based-tagged result with
confidence 1.0 is `backend/main.py`'s short-circuit for trimmed input
shorter than 3 characters. -/
theorem rule_based_confidence_bounds :
    (∀ text : List Char, (appRuleBased text).confidence ≤ 0.95) ∧
    (∀ text : List Char, (mainRuleBased text).confidence ≤ 0.8) ∧
    (∀ (text : List Char) (ml : MlOutcome), (pyStrip text).length < 3 →
      mainDetectEmotion text ml =
        Except.ok { emotion := "neutral", confidence := 1.0,
                    model_used := "rule-based" }) := by
  refine ⟨?_, ?_, ?_⟩
  · intro text
    unfold appRuleBased ruleBasedFinish
    dsimp only
    split
    · norm_num
    · dsimp only
      exact round2_le_095 _ (min_le_right _ _)
  · intro text
    unfold mainRuleBased
    dsimp only
    split
    · norm_num
    · dsimp only
      calc min 0.7 (mainScores (pyLower text)
              (mainArgmax (mainScores (pyLower text))))
          ≤ 0.7 := min_le_left _ _
        _ ≤ 0.8 := by norm_num
  · intro text ml h
    unfold mainDetectEmotion
    rw [if_pos h]

/-- C4 (witness): concrete instantiation of
`rule_based_confidence_bounds` at the inputs `"great day"` and
`"hi"`. -/
theorem rule_based_confidence_bounds_witness :
    (appRuleBased (txt "great day")).confidence ≤ 0.95 ∧
    (mainRuleBased (txt "great day")).confidence ≤ 0.8 ∧
    (pyStrip (txt "hi")).length < 3 ∧
    mainDetectEmotion (txt "hi") MlOutcome.unavailable =
      Except.ok { emotion := "neutral", confidence := 1.0,
                  model_used := "rule-based" } :=
  ⟨rule_based_confidence_bounds.1 (txt "great day"),
   rule_based_confidence_bounds.2.1 (txt "great day"),
   by decide,
   rule_based_confidence_bounds.2.2 (txt "hi") MlOutcome.unavailable
     (by decide)⟩

/-- C5: the sliding-window rate limiter of
`backend/app_new_clean.py`.  Each admission check prunes timestamps at
least 60 seconds old, rejects when 30 remain, and otherwise appends
the current time and accepts: 30 calls within one 60-second window all
admit and record their timestamps; a 31st call within the window is
rejected; once the whole window has elapsed a further call admits
again; and a check for one client identity leaves every other
identity's window untouched. -/
theorem rate_limiter_sliding_window :
    (∀ (ts : List ℚ) (t31 u : ℚ),
      ts.length = 30 →
      (∀ a ∈ ts ++ [t31], ∀ b ∈ ts, a - RATE_LIMIT_WINDOW < b) →
      (∀ b ∈ ts, b ≤ u - RATE_LIMIT_WINDOW) →
      (runCalls [] ts).1 = List.replicate 30 true ∧
      (checkRateLimit t31 (runCalls [] ts).2).1 = false ∧
      (checkRateLimit u (checkRateLimit t31 (runCalls [] ts).2).2).1 =
        true) ∧
    (∀ (ip ip' : String) (now : ℚ) (st : RateCache), ip ≠ ip' →
      (rateLimitStep ip now st).2 ip' = st ip') := by
  constructor
  · intro ts t31 u hlen hspan helapse
    have hrun := runCalls_admits ts []
      (by simp [hlen, RATE_LIMIT_MAX_CALLS])
      (by
        intro a ha b hb
        exact hspan a (by simp [ha]) b (by simpa using hb))
    have hwin : (runCalls [] ts).2 = ts := by simpa using hrun.2
    have hfull : ts.filter (fun b => t31 - RATE_LIMIT_WINDOW < b) = ts := by
      apply List.filter_eq_self.mpr
      intro b hb
      simpa using hspan t31 (by simp) b hb
    have hreject : (checkRateLimit t31 ts).1 = false := by
      unfold checkRateLimit
      rw [hfull]
      rw [if_pos (show RATE_LIMIT_MAX_CALLS ≤ ts.length by rw [hlen]; decide)]
    have hrejwin : (checkRateLimit t31 ts).2 = ts := by
      unfold checkRateLimit
      rw [hfull]
      rw [if_pos (show RATE_LIMIT_MAX_CALLS ≤ ts.length by rw [hlen]; decide)]
    have hempty : ts.filter (fun b => u - RATE_LIMIT_WINDOW < b) = [] := by
      apply List.filter_eq_nil_iff.mpr
      intro b hb
      simpa using not_lt.mpr (by linarith [helapse b hb])
    refine ⟨by rw [hrun.1, hlen], ?_, ?_⟩
    · rw [hwin]
      exact hreject
    · rw [hwin, hrejwin]
      unfold checkRateLimit
      rw [hempty]
      rw [if_neg (by simp [RATE_LIMIT_MAX_CALLS])]
  · intro ip ip' now st h
    unfold rateLimitStep
    dsimp only
    rw [if_neg (Ne.symm h)]

/-- C5 (witness): concrete instantiation of
`rate_limiter_sliding_window`: thirty calls at time 0, a 31st call at
time 30 (inside the window), a later call at time 90 (window fully
elapsed), and the identities `"10.0.0.1"` and `"10.0.0.2"`. -/
theorem rate_limiter_sliding_window_witness :
    (List.replicate 30 (0 : ℚ)).length = 30 ∧
    (runCalls [] (List.replicate 30 (0 : ℚ))).1 =
      List.replicate 30 true ∧
    (checkRateLimit 30 (runCalls [] (List.replicate 30 (0 : ℚ))).2).1 =
      false ∧
    (checkRateLimit 90
      (checkRateLimit 30
        (runCalls [] (List.replicate 30 (0 : ℚ))).2).2).1 = true ∧
    (rateLimitStep "10.0.0.1" 5 (fun _ => [])).2 "10.0.0.2" = [] := by
  have hspan : ∀ a ∈ List.replicate 30 (0 : ℚ) ++ [30],
      ∀ b ∈ List.replicate 30 (0 : ℚ), a - RATE_LIMIT_WINDOW < b := by
    intro a ha b hb
    have hb0 : b = 0 := List.eq_of_mem_replicate hb
    have ha0 : a = 0 ∨ a = 30 := by
      rcases List.mem_append.mp ha with h | h
      · exact Or.inl (List.eq_of_mem_replicate h)
      · exact Or.inr (by simpa using h)
    subst hb0
    rcases ha0 with h | h <;> subst h <;> norm_num [RATE_LIMIT_WINDOW]
  have helapse : ∀ b ∈ List.replicate 30 (0 : ℚ),
      b ≤ 90 - RATE_LIMIT_WINDOW := by
    intro b hb
    have hb0 : b = 0 := List.eq_of_mem_replicate hb
    subst hb0
    norm_num [RATE_LIMIT_WINDOW]
  have h := rate_limiter_sliding_window.1 (List.replicate 30 (0 : ℚ))
    30 90 (by simp) hspan helapse
  exact ⟨by simp, h.1, h.2.1, h.2.2,
    rate_limiter_sliding_window.2 "10.0.0.1" "10.0.0.2" 5 (fun _ => [])
      (by decide)⟩

/-- C7: round-trip and expiry of the TTL result cache (modelled from
the spec; the `TTLCache` implementation is the `cachetools` library,
not part of the repository sources).  A `get` immediately after `put`
— or at any later time not beyond the 3600-second TTL — returns
exactly the stored value, and a `get` whose entry's age exceeds the
TTL signals absence even though the entry is still physically
present. -/
theorem cache_roundtrip_and_expiry :
    (∀ (α : Type) (c : Cache α) (k : String) (v : α) (t now : ℚ),
      now - t ≤ CACHE_TTL →
      cacheGet (cachePut c k v t) k now = some v) ∧
    (∀ (α : Type) (c : Cache α) (k : String) (now : ℚ),
      (∀ p ∈ c, p.1 = k → CACHE_TTL < now - p.2.2) →
      cacheGet c k now = none) := by
  constructor
  · intro α c k v t now h
    unfold cacheGet cachePut
    rw [List.find?_cons_of_pos _ (by simp)]
    dsimp only
    rw [if_pos h]
  · intro α c k now h
    induction c with
    | nil => rfl
    | cons p c ih =>
        unfold cacheGet
        by_cases hp : p.1 = k
        · rw [List.find?_cons_of_pos _ (by simpa using hp)]
          dsimp only
          rw [if_neg (not_le.mpr (h p (by simp) hp))]
        · rw [List.find?_cons_of_neg _ (by simpa using hp)]
          exact ih (fun q hq => h q (by simp [hq]))

/-- C7 (witness): concrete instantiation of
`cache_roundtrip_and_expiry`: a value stored at time 0 is still
returned at time 10, and an entry inserted at time 0 is absent at time
4000 (> 3600 TTL) although still stored. -/
theorem cache_roundtrip_and_expiry_witness :
    (10 : ℚ) - 0 ≤ CACHE_TTL ∧
    cacheGet (cachePut ([] : Cache ℚ) "fp" 7 0) "fp" 10 = some 7 ∧
    cacheGet [("fp", (7 : ℚ), 0)] "fp" 4000 = none := by
  have h1 : (10 : ℚ) - 0 ≤ CACHE_TTL := by
    unfold CACHE_TTL
    norm_num
  refine ⟨h1, cache_roundtrip_and_expiry.1 ℚ [] "fp" 7 0 10 h1, ?_⟩
  apply cache_roundtrip_and_expiry.2 ℚ [("fp", (7 : ℚ), 0)] "fp" 4000
  intro p hp _
  have hp' : p = ("fp", (7 : ℚ), 0) := by simpa using hp
  rw [hp']
  unfold CACHE_TTL
  norm_num

/-- C10: `/api/batch-detect-emotion` performs no rate-limit admission
check — the rate cache passes through the handler unchanged, and a
batch of any size yields one result per input — while
`/api/detect-emotion` consults and updates the calling identity's
window on every call (pruning entries older than 60 seconds, then
either recording the rejection or appending the current time). -/
theorem batch_bypasses_rate_limiter :
    (∀ (resps : List HFResponse) (st : RateCache),
      (apiBatchDetectEmotion resps st).2 = st ∧
      (apiBatchDetectEmotion resps st).1.length = resps.length) ∧
    (∀ (ip : String) (now : ℚ) (st : RateCache) (resp : HFResponse),
      (apiDetectEmotion ip now st resp).2 ip =
        (if RATE_LIMIT_MAX_CALLS ≤
            ((st ip).filter (fun t => now - RATE_LIMIT_WINDOW < t)).length
         then (st ip).filter (fun t => now - RATE_LIMIT_WINDOW < t)
         else (st ip).filter (fun t => now - RATE_LIMIT_WINDOW < t)
           ++ [now])) := by
  constructor
  · intro resps st
    exact ⟨rfl, by simp [apiBatchDetectEmotion]⟩
  · intro ip now st resp
    have hstate : (apiDetectEmotion ip now st resp).2 =
        (rateLimitStep ip now st).2 := by
      unfold apiDetectEmotion
      dsimp only
      split
      · rfl
      · cases h : detectEmotionHuggingface resp <;> rfl
    rw [hstate]
    unfold rateLimitStep checkRateLimit
    dsimp only
    rw [if_pos rfl]
    split <;> rfl

/-! ## Concrete evaluations of the rule-based scorer

Rational arithmetic does not reduce definitionally, so concrete runs
of the scorer are evaluated in two steps: the keyword-matching
skeleton is reduced by `rfl` (it is Boolean) and the remaining
rational arithmetic is closed by `norm_num`. -/

/-- Base score vector of `"i am happy"`: the joy keyword `"happy"`
matches once, nothing else does, and there is no negation. -/
theorem evalBaseHappy :
    baseScores (txt "i am happy") = fun l => if l = joy then (1 : ℚ) else 0 := by
  funext l
  cases l
  case joy =>
    rw [show baseScores (txt "i am happy") joy = ([1, 0, 0] : List ℚ).sum from rfl]
    simp
  case sadness =>
    rw [show baseScores (txt "i am happy") sadness = ([0, 0, 0] : List ℚ).sum from rfl]
    simp
  case anger =>
    rw [show baseScores (txt "i am happy") anger = ([0, 0, 0] : List ℚ).sum from rfl]
    simp
  case fear =>
    rw [show baseScores (txt "i am happy") fear = ([0, 0, 0] : List ℚ).sum from rfl]
    simp
  case surprise =>
    rw [show baseScores (txt "i am happy") surprise = ([0, 0, 0] : List ℚ).sum from rfl]
    simp
  case love =>
    rw [show baseScores (txt "i am happy") love = ([0, 0, 0] : List ℚ).sum from rfl]
    simp
  case neutral =>
    rw [show baseScores (txt "i am happy") neutral = ([0, 0, 0] : List ℚ).sum from rfl]
    simp

/-- Base score vector of `"i am not happy"`: the joy keyword `"happy"`
matches but the negation word `"not"` scales its contribution by
0.3. -/
theorem evalBaseNotHappy :
    baseScores (txt "i am not happy") =
      fun l => if l = joy then (0.3 : ℚ) else 0 := by
  funext l
  cases l
  case joy =>
    rw [show baseScores (txt "i am not happy") joy =
        ([1 * 0.3, 0, 0] : List ℚ).sum from rfl]
    simp
  case sadness =>
    rw [show baseScores (txt "i am not happy") sadness =
        ([0, 0, 0] : List ℚ).sum from rfl]
    simp
  case anger =>
    rw [show baseScores (txt "i am not happy") anger =
        ([0, 0, 0] : List ℚ).sum from rfl]
    simp
  case fear =>
    rw [show baseScores (txt "i am not happy") fear =
        ([0, 0, 0] : List ℚ).sum from rfl]
    simp
  case surprise =>
    rw [show baseScores (txt "i am not happy") surprise =
        ([0, 0, 0] : List ℚ).sum from rfl]
    simp
  case love =>
    rw [show baseScores (txt "i am not happy") love =
        ([0, 0, 0] : List ℚ).sum from rfl]
    simp
  case neutral =>
    rw [show baseScores (txt "i am not happy") neutral =
        ([0, 0, 0] : List ℚ).sum from rfl]
    simp

/-- Base score vector of `"zzz"`: nothing matches. -/
theorem evalBaseZzz :
    baseScores (txt "zzz") = fun _ => (0 : ℚ) := by
  have h : ∀ l, baseScores (txt "zzz") l = ([0, 0, 0] : List ℚ).sum := by
    intro l
    cases l <;> rfl
  funext l
  rw [h l]
  simp

/-- A text containing no compound pattern leaves the score vector
unchanged. -/
theorem compoundScores_id (t : List Char) (v : EmotionLabel → ℚ)
    (h : ∀ l, (((compoundPatterns.find? (fun p => p.1 = l)).map
        Prod.snd).getD []).filter (fun p => containsSub p t) = []) :
    compoundScores t v = v := by
  funext l
  unfold compoundScores
  dsimp only
  rw [h l]
  simp

/-- Maximal entry of the vector that is `q` at `joy` and `0`
elsewhere. -/
theorem maxScore_ite_joy (q : ℚ) (hq : 0 ≤ q) :
    maxScore (fun l => if l = joy then q else 0) = q := by
  simp [maxScore, labelOrder, max_self, max_eq_left hq]

/-- Sum of the vector that is `q` at `joy` and `0` elsewhere. -/
theorem sumScores_ite_joy (q : ℚ) :
    sumScores (fun l => if l = joy then q else 0) = q := by
  simp [sumScores, labelOrder]

/-- Final score vector of `"I am happy"`: joy scores 1, everything
else 0 (no compound pattern, no sentiment fallback since the maximum
already reaches 1, no exclamation mark). -/
theorem evalFinalHappy :
    finalScores (txt "I am happy") =
      fun l => if l = joy then (1 : ℚ) else 0 := by
  unfold finalScores
  dsimp only
  rw [show pyLower (txt "I am happy") = txt "i am happy" from rfl]
  rw [evalBaseHappy]
  rw [compoundScores_id _ _ (by intro l; cases l <;> rfl)]
  have hs : sentimentScores (txt "i am happy")
      (fun l => if l = joy then (1 : ℚ) else 0) =
      fun l => if l = joy then (1 : ℚ) else 0 := by
    unfold sentimentScores
    rw [if_neg]
    rw [maxScore_ite_joy 1 (by norm_num)]
    norm_num
  rw [hs]
  rfl

/-- Final score vector of `"I am not happy"`: joy scores 0.3 (negation
scaling), everything else 0 (no compound pattern; the sentiment
fallback runs but finds no positive or negative indicator words; no
exclamation mark). -/
theorem evalFinalNotHappy :
    finalScores (txt "I am not happy") =
      fun l => if l = joy then (0.3 : ℚ) else 0 := by
  unfold finalScores
  dsimp only
  rw [show pyLower (txt "I am not happy") = txt "i am not happy" from rfl]
  rw [evalBaseNotHappy]
  rw [compoundScores_id _ _ (by intro l; cases l <;> rfl)]
  have hs : sentimentScores (txt "i am not happy")
      (fun l => if l = joy then (0.3 : ℚ) else 0) =
      fun l => if l = joy then (0.3 : ℚ) else 0 := by
    unfold sentimentScores
    rw [if_pos]
    · rfl
    · rw [maxScore_ite_joy 0.3 (by norm_num)]
      norm_num
  rw [hs]
  rfl

/-- Final score vector of `"zzz"`: everything 0. -/
theorem evalFinalZzz :
    finalScores (txt "zzz") = fun _ => (0 : ℚ) := by
  unfold finalScores
  dsimp only
  rw [show pyLower (txt "zzz") = txt "zzz" from rfl]
  rw [evalBaseZzz]
  rw [compoundScores_id _ _ (by intro l; cases l <;> rfl)]
  have hs : sentimentScores (txt "zzz") (fun _ => (0 : ℚ)) =
      fun _ => (0 : ℚ) := by
    unfold sentimentScores
    rw [if_pos]
    · rfl
    · have : maxScore (fun _ => (0 : ℚ)) = 0 := by
        simp [maxScore, labelOrder]
      rw [this]
      norm_num
  rw [hs]
  rfl

/-- `roundHalfEven` is the identity on integers. -/
theorem roundHalfEven_intCast (n : ℤ) :
    roundHalfEven ((n : ℚ)) = n := by
  unfold roundHalfEven
  rw [Int.floor_intCast]
  rw [if_pos (by norm_num)]

/-- `round2` fixes 0.95 (= 95/100, already at two decimals). -/
theorem round2_095 : round2 (0.95 : ℚ) = 0.95 := by
  unfold round2
  rw [show (0.95 : ℚ) * 100 = ((95 : ℤ) : ℚ) from by norm_num]
  rw [roundHalfEven_intCast]
  norm_num

/-- The all-zero vector has maximal entry 0. -/
theorem maxScore_const_zero : maxScore (fun _ => (0 : ℚ)) = 0 := by
  simp [maxScore, labelOrder]

/-- `main.py` score vector of `"happy"`: joy gets one 0.2 match,
neutral keeps its 0.1 seed. -/
theorem evalMainHappy :
    mainScores (txt "happy") = fun l =>
      if l = joy then (0.2 : ℚ) else if l = neutral then (0.1 : ℚ) else 0 := by
  funext l
  cases l
  case joy =>
    rw [show mainScores (txt "happy") joy =
        (0 : ℚ) + 0.2 * ((1 : ℕ) : ℚ) from rfl]
    simp
  case sadness =>
    rw [show mainScores (txt "happy") sadness =
        (0 : ℚ) + 0.2 * ((0 : ℕ) : ℚ) from rfl]
    simp
  case anger =>
    rw [show mainScores (txt "happy") anger =
        (0 : ℚ) + 0.2 * ((0 : ℕ) : ℚ) from rfl]
    simp
  case fear =>
    rw [show mainScores (txt "happy") fear =
        (0 : ℚ) + 0.2 * ((0 : ℕ) : ℚ) from rfl]
    simp
  case surprise =>
    rw [show mainScores (txt "happy") surprise =
        (0 : ℚ) + 0.2 * ((0 : ℕ) : ℚ) from rfl]
    simp
  case love =>
    rw [show mainScores (txt "happy") love =
        (0 : ℚ) + 0.2 * ((0 : ℕ) : ℚ) from rfl]
    simp
  case neutral =>
    rw [show mainScores (txt "happy") neutral =
        (0.1 : ℚ) + 0.2 * ((0 : ℕ) : ℚ) from rfl]
    simp

/-- `main.py` score vector of `"zzz"`: only the 0.1 neutral seed. -/
theorem evalMainZzz :
    mainScores (txt "zzz") = fun l =>
      if l = neutral then (0.1 : ℚ) else 0 := by
  funext l
  cases l
  case neutral =>
    rw [show mainScores (txt "zzz") neutral =
        (0.1 : ℚ) + 0.2 * ((0 : ℕ) : ℚ) from rfl]
    simp
  case joy =>
    rw [show mainScores (txt "zzz") joy =
        (0 : ℚ) + 0.2 * ((0 : ℕ) : ℚ) from rfl]
    simp
  case sadness =>
    rw [show mainScores (txt "zzz") sadness =
        (0 : ℚ) + 0.2 * ((0 : ℕ) : ℚ) from rfl]
    simp
  case anger =>
    rw [show mainScores (txt "zzz") anger =
        (0 : ℚ) + 0.2 * ((0 : ℕ) : ℚ) from rfl]
    simp
  case fear =>
    rw [show mainScores (txt "zzz") fear =
        (0 : ℚ) + 0.2 * ((0 : ℕ) : ℚ) from rfl]
    simp
  case surprise =>
    rw [show mainScores (txt "zzz") surprise =
        (0 : ℚ) + 0.2 * ((0 : ℕ) : ℚ) from rfl]
    simp
  case love =>
    rw [show mainScores (txt "zzz") love =
        (0 : ℚ) + 0.2 * ((0 : ℕ) : ℚ) from rfl]
    simp

/-- Maximal `main.py` score of `"happy"` is 0.2. -/
theorem evalMainMaxHappy :
    mainMaxScore (mainScores (txt "happy")) = 0.2 := by
  rw [evalMainHappy]
  simp [mainMaxScore, mainLabelOrder]
  norm_num [max_def]

/-- The `main.py` argmax on `"happy"` is joy. -/
theorem evalMainArgmaxHappy :
    mainArgmax (mainScores (txt "happy")) = joy := by
  rw [evalMainHappy]
  simp [mainArgmax, mainLabelOrder]
  norm_num

/-- C6: whenever the rule-based scorer reaches its final step with a
maximal score of at least 0.5, the reported confidence is exactly
`min(max_score / sum(vector), 0.95)` rounded (half-to-even) to two
decimal places, where max and sum range over the final
EmotionScoreVector. -/
theorem rule_based_confidence_formula (text : List Char)
    (h : 1/2 ≤ maxScore (finalScores text)) :
    (appRuleBased text).confidence =
      round2 (min (maxScore (finalScores text) /
        sumScores (finalScores text)) 0.95) := by
  have hnn : ∀ l, 0 ≤ finalScores text l := finalScores_nonneg text
  have hms : maxScore (finalScores text) ≤ sumScores (finalScores text) :=
    maxScore_le_sumScores _ hnn
  have hpos : 0 < sumScores (finalScores text) := by linarith
  unfold appRuleBased ruleBasedFinish
  dsimp only
  rw [if_neg (not_lt.mpr (by linarith : (0.5 : ℚ) ≤ maxScore (finalScores text)))]
  dsimp only
  rw [if_pos hpos]

/-- C6 (witness): concrete instantiation of
`rule_based_confidence_formula` at the input `"I am happy"` (maximal
final score 1 ≥ 0.5). -/
theorem rule_based_confidence_formula_witness :
    1/2 ≤ maxScore (finalScores (txt "I am happy")) ∧
    (appRuleBased (txt "I am happy")).confidence =
      round2 (min (maxScore (finalScores (txt "I am happy")) /
        sumScores (finalScores (txt "I am happy"))) 0.95) := by
  have h : 1/2 ≤ maxScore (finalScores (txt "I am happy")) := by
    rw [evalFinalHappy, maxScore_ite_joy 1 (by norm_num)]
    norm_num
  exact ⟨h, rule_based_confidence_formula _ h⟩

/-- C8 (counterexample): on the input `"happy"`, `backend/main.py`'s
rule-based classifier completes scoring with maximal score 0.2 < 0.5
yet returns `joy` with confidence 0.2 — not the claimed
`{neutral, 0.4}` floor. -/
theorem low_signal_counterexample :
    mainMaxScore (mainScores (pyLower (txt "happy"))) < 1/2 ∧
    mainRuleBased (txt "happy") =
      { emotion := joy, confidence := 0.2, model_used := "rule-based" } := by
  have hl : pyLower (txt "happy") = txt "happy" := rfl
  constructor
  · rw [hl, evalMainMaxHappy]
    norm_num
  · unfold mainRuleBased
    dsimp only
    rw [hl]
    rw [if_neg (by rw [evalMainMaxHappy]; norm_num)]
    rw [evalMainArgmaxHappy]
    rw [evalMainHappy]
    norm_num [DetectResult.mk.injEq, min_def]

/-- C8 (amended): `backend/app.py`'s rule-based classifier returns
`{neutral, 0.4}` whenever the final maximal score is below 0.5;
`backend/main.py`'s `rule_based_emotion_detection` applies its neutral
floor (confidence 0.8) only when the maximal score is at most 0.1, and
otherwise reports the argmax label even when the maximum is below
0.5. -/
theorem low_signal_neutral_floor :
    (∀ text : List Char, maxScore (finalScores text) < 1/2 →
      appRuleBased text =
        { emotion := neutral, confidence := 0.4,
          model_used := "rule-based" }) ∧
    (∀ text : List Char,
      mainMaxScore (mainScores (pyLower text)) ≤ 0.1 →
      mainRuleBased text =
        { emotion := neutral, confidence := 0.8,
          model_used := "rule-based" }) := by
  constructor
  · intro text h
    unfold appRuleBased ruleBasedFinish
    dsimp only
    rw [if_pos (by linarith : maxScore (finalScores text) < 0.5)]
  · intro text h
    unfold mainRuleBased
    dsimp only
    rw [if_pos h]

/-- C8 (witness): concrete instantiation of `low_signal_neutral_floor`
at the no-signal input `"zzz"`. -/
theorem low_signal_neutral_floor_witness :
    maxScore (finalScores (txt "zzz")) < 1/2 ∧
    appRuleBased (txt "zzz") =
      { emotion := neutral, confidence := 0.4,
        model_used := "rule-based" } ∧
    mainMaxScore (mainScores (pyLower (txt "zzz"))) ≤ 0.1 ∧
    mainRuleBased (txt "zzz") =
      { emotion := neutral, confidence := 0.8,
        model_used := "rule-based" } := by
  have h1 : maxScore (finalScores (txt "zzz")) < 1/2 := by
    rw [evalFinalZzz, maxScore_const_zero]
    norm_num
  have h2 : mainMaxScore (mainScores (pyLower (txt "zzz"))) ≤ 0.1 := by
    rw [show pyLower (txt "zzz") = txt "zzz" from rfl, evalMainZzz]
    simp [mainMaxScore, mainLabelOrder]
    norm_num [max_def]
  exact ⟨h1, low_signal_neutral_floor.1 _ h1, h2,
    low_signal_neutral_floor.2 _ h2⟩

/-- C9: negation scales the joy contribution by 0.3 instead of
flipping the label — `"I am not happy"` ends with a strictly lower joy
score than `"I am happy"`, the un-negated input classifies as joy, and
the negated input falls to the neutral low-signal floor rather than
asserting any opposite emotion. -/
theorem negation_reduces_joy :
    finalScores (txt "I am not happy") joy <
      finalScores (txt "I am happy") joy ∧
    appRuleBased (txt "I am happy") =
      { emotion := joy, confidence := 0.95, model_used := "rule-based" } ∧
    appRuleBased (txt "I am not happy") =
      { emotion := neutral, confidence := 0.4,
        model_used := "rule-based" } := by
  refine ⟨?_, ?_, ?_⟩
  · rw [evalFinalNotHappy, evalFinalHappy]
    norm_num
  · unfold appRuleBased ruleBasedFinish
    dsimp only
    rw [evalFinalHappy]
    rw [maxScore_ite_joy 1 (by norm_num)]
    rw [if_neg (by norm_num)]
    dsimp only
    rw [sumScores_ite_joy 1]
    rw [if_pos (by norm_num : (0 : ℚ) < 1)]
    have hdom : (labelOrder.filter
        (fun l => (fun l => if l = joy then (1 : ℚ) else 0) l = 1)).headD
        neutral = joy := by
      norm_num [labelOrder, List.filter_cons]
    rw [hdom]
    have hconf : round2 (min ((1 : ℚ) / 1) 0.95) = 0.95 := by
      rw [show min ((1 : ℚ) / 1) 0.95 = 0.95 from by norm_num [min_def]]
      exact round2_095
    rw [hconf]
  · unfold appRuleBased ruleBasedFinish
    dsimp only
    rw [evalFinalNotHappy]
    rw [maxScore_ite_joy 0.3 (by norm_num)]
    rw [if_pos (by norm_num)]

end Mindmate
